import Mathlib

/-!
Verification development for `src/gpx/gpxresp.c` — the response translator
and wait-state engine of the GPX bridge (x3g ↔ reprap text protocol).

The C source is shallowly embedded below.  Conventions used throughout:

* The C struct `Tio` keeps the aggregate wait counter and the individual
  wait flags in overlapping storage (an anonymous union of `unsigned waiting`
  with the `waitflag` bitfield struct: assigning `waiting = 0` clears every
  flag, and setting any flag makes `waiting` nonzero — this is visible in
  the source, e.g. `tio_clear_state_for_cancel` writes `waiting = 0` and then
  `waitflag.waitForEmptyQueue = 1`, and the finalizer tests `tio.waiting`
  which must reflect bits set only through `waitflag` members).  We model the
  shared word as a `Nat` (`waiting`) and each flag as one bit of it.
* Machine integers are modelled as `Nat`/`Int`; C `double` fields (current
  position, steps-per-mm, excess) are modelled as `ℚ` since only their
  exact assignments matter to the translator logic.
* Fallible allocation (`malloc`/`realloc`/`strdup`) is modelled by boolean
  oracles passed as arguments.
* `vsnprintf` output is modelled by passing the already-formatted byte
  string as an argument; its truncating write-and-count semantics are kept.
-/

namespace Gpxresp

/-! ## Bits of the shared `waiting` word

Bit assignment for the `waitflag` bitfield members, in declaration order:
0 `waitForEmptyQueue`, 1 `waitForExtruderA`, 2 `waitForExtruderB`,
3 `waitForPlatform`, 4 `waitForButton`, 5 `waitForStart`, 6 `waitForBuffer`,
7 `waitForBotCancel`, 8 `waitForUnpause`, 9 `waitForCancelSync`. -/

/-- Set bit `i` of the wait word (C: `waitflag.x = 1`). -/
def wSet (w i : Nat) : Nat := w ||| 2 ^ i

/-- Clear bit `i` of the wait word (C: `waitflag.x = 0`). -/
def wClear (w i : Nat) : Nat := Nat.ldiff w (2 ^ i)

/-- Assign bit `i` of the wait word from a boolean (C: `waitflag.x = b`). -/
def wAssign (w i : Nat) (b : Bool) : Nat := if b then wSet w i else wClear w i

/-- Read bit `i` of the wait word (C: `waitflag.x`). -/
def wGet (w i : Nat) : Bool := w.testBit i

theorem wGet_wSet (w i j : Nat) :
    wGet (wSet w i) j = (wGet w j || decide (i = j)) := by
  simp only [wGet, wSet, Nat.testBit_lor]
  rcases eq_or_ne i j with h | h
  · subst h; simp [Nat.testBit_two_pow_self]
  · simp [Nat.testBit_two_pow_of_ne h, h]

theorem wGet_wClear (w i j : Nat) :
    wGet (wClear w i) j = (wGet w j && !decide (i = j)) := by
  simp only [wGet, wClear, Nat.testBit_ldiff]
  rcases eq_or_ne i j with h | h
  · subst h; simp [Nat.testBit_two_pow_self]
  · simp [Nat.testBit_two_pow_of_ne h, h]

/-! ## Status / enumeration types

`gpx.h` is not part of the sources under verification; the status
enumerations below are modelled from the spec (§4.C.1 and §7): build
status values as an enumeration (`BUILD_RUNNING` is the numeric value `1`
compared against in `case 24`), and the return-value domain as named
constructors plus a `packet` constructor carrying the device packet code
(`0x80`–`0x8C`). -/

/-- Device build status (s3g build statistics). `running` is numeric value 1,
matching the literal `1` in the deadline test of `case 24`. -/
inductive BuildStatus where
  | none
  | running
  | finishedNormally
  | paused
  | canceled
  | cancelling
  deriving DecidableEq, Repr

/-- Return-value domain of the translator/parser functions.  Modelled from
the spec: named error kinds from §7 plus device packet codes carried by
`packet`. -/
inductive RVal where
  | success
  | endOfFile
  | eoserror
  | error
  | esiowrite
  | esioread
  | esioframe
  | esiocrc
  | esiotimeout
  | esiobadbaud
  | packet (code : Nat)
  deriving DecidableEq, Repr

/-- Modelled from the spec: the numeric value printed for an error code by
`"… code = %d"` and `"Error: Unknown error code: %d"`; the exact integers
live in `gpx.h` which is not under `src/`, so representative distinct
values are used (they feed only into printed text). -/
def RVal.toInt : RVal → Int
  | .success => 0
  | .endOfFile => 1
  | .eoserror => -2
  | .error => -1
  | .esiowrite => -3
  | .esioread => -4
  | .esioframe => -5
  | .esiocrc => -6
  | .esiotimeout => -7
  | .esiobadbaud => -8
  | .packet c => Int.ofNat c

/-- Program state values (`gpx.h`, modelled from the spec's "ENDED → READY"
description: `READY_STATE < RUNNING_STATE < ENDED_STATE`). -/
def READY_STATE : Nat := 0

/-- `RUNNING_STATE` program state value. -/
def RUNNING_STATE : Nat := 1

/-! ## Translation buffer (`tio->translation` / `tio->cur`)

Byte-accurate model used for the buffer-overflow claims.  The buffer is a
total function from index to byte; `cap` stands for
`sizeof(tio->translation)`. -/

/-- State of the bounded translation buffer: backing bytes and cursor. -/
structure TioBuf where
  buf : Nat → Nat
  cur : Nat

/-- `vsnprintf(dst + off, size, …)` where the formatted output is the byte
string `s`: writes `min |s| (size − 1)` bytes at `off`, NUL-terminates after
them, and returns the untruncated length `|s|`. -/
def vsnprintfModel (buf : Nat → Nat) (off size : Nat) (s : List Nat) :
    (Nat → Nat) × Nat :=
  let k := min s.length (size - 1)
  (fun j =>
      if off ≤ j ∧ j < off + k then s.getD (j - off) 0
      else if j = off + k then 0
      else buf j,
   s.length)

/-- `tio_vprintf` (gpxresp.c:105): drop when the cursor has reached
capacity, otherwise `vsnprintf` into the remaining space and advance the
cursor by the returned (untruncated) count when it is positive. -/
def tio_vprintf (cap : Nat) (st : TioBuf) (s : List Nat) : TioBuf × Nat :=
  if st.cur ≥ cap then (st, 0)
  else
    let r := vsnprintfModel st.buf st.cur (cap - st.cur) s
    ({ buf := r.1, cur := if r.2 > 0 then st.cur + r.2 else st.cur }, r.2)

/-! ## String table (`Sttb`) -/

/-- String table state. `rgs = none` models a NULL backing array; the list
holds the stored strings (`cs` is its length); `cb`/`cb_expand` are the
byte capacity and growth chunk. -/
structure Sttb where
  rgs : Option (List String)
  cb : Nat
  cb_expand : Nat
  deriving DecidableEq, Repr

/-- Number of stored strings (`psttb->cs`). -/
def Sttb.cs (t : Sttb) : Nat := (t.rgs.getD []).length

/-- Stored elements in order (`psttb->rgs[0 .. cs)`). -/
def Sttb.elems (t : Sttb) : List String := t.rgs.getD []

/-- `sttb_init` (gpxresp.c:36) with the allocation succeeding. -/
def sttb_init (cs_chunk ptrSize : Nat) : Sttb :=
  { rgs := some [], cb := cs_chunk * ptrSize, cb_expand := cs_chunk * ptrSize }

/-- `sttb_add` (gpxresp.c:65).  `ptrSize` stands for `sizeof(char *)`;
`reallocOk`/`dupOk` are allocation oracles for `realloc` and `strdup`.
Returns the C function's return value (`none` = NULL) and the new table. -/
def sttb_add (ptrSize : Nat) (reallocOk dupOk : Bool) (t : Sttb) (s : String) :
    Option String × Sttb :=
  match t.rgs with
  | none => (none, t)
  | some l =>
    let cb_needed := ptrSize * (l.length + 1)
    if cb_needed > t.cb then
      let cb_needed' :=
        if t.cb + t.cb_expand > cb_needed then t.cb + t.cb_expand else cb_needed
      if reallocOk then
        let t1 : Sttb := { t with cb := cb_needed' }
        if dupOk then (some s, { t1 with rgs := some (l ++ [s]) })
        else (none, t1)
      else (none, t)
    else
      if dupOk then (some s, { t with rgs := some (l ++ [s]) })
      else (none, t)

/-- ASCII case folding as performed by `strcasecmp` in the C locale. -/
def caseFold (c : Char) : Char :=
  if 'A' ≤ c ∧ c ≤ 'Z' then Char.ofNat (c.toNat + 32) else c

/-- `strcasecmp(a, b) == 0`. -/
def strcaseEq (a b : String) : Bool :=
  a.data.map caseFold == b.data.map caseFold

/-- Index scan of `sttb_find_nocase` (gpxresp.c:93) over the element list,
starting at index `i`. -/
def sttb_find_from (l : List String) (s : String) (i : Nat) : Int :=
  match l with
  | [] => -1
  | x :: xs => if strcaseEq s x then Int.ofNat i else sttb_find_from xs s (i + 1)

/-- `sttb_find_nocase` (gpxresp.c:93): first case-insensitive match, `-1`
when absent. -/
def sttb_find_nocase (l : List String) (s : String) : Int :=
  sttb_find_from l s 0

/-! ## Session state

One structure models the mutable state the translator touches: the `Tio`
fields of gpxresp.c plus the `Gpx` fields it reads and writes
(`selectedFilename`, `command` is per-call input, `flag.programState`,
`flag.macrosEnabled`, `axis.positionKnown`, `current.*`, `excess`,
`machine`).  The translation buffer is kept as an unbounded `List Char`
here (the control-flow claims are about its contents below capacity; the
byte-accurate bounded model `TioBuf` above covers the overflow claims).
The string table is kept as its element list with allocation assumed to
succeed (the allocation-failure behaviour is covered by `sttb_add`
above). -/

/-- Machine profile fields the translator reads (`gpx->machine`): per-axis
steps-per-mm (C `double`, modelled as `ℚ`), extruder count, type name. -/
structure Machine where
  spmX : ℚ
  spmY : ℚ
  spmZ : ℚ
  spmA : ℚ
  spmB : ℚ
  extruder_count : Nat
  mtype : String
  deriving DecidableEq, Repr

/-- Decoded reply fields filled in by `port_handler`
(`tio->sio.response`).  The motherboard status flags are members of the
`bitfield`; their bit layout lives in a header not under `src/`, so they
are modelled as separate booleans read only when the bitfield is
nonzero. -/
structure Response where
  temperature : Nat
  isReady : Bool
  sdStatus : Nat
  sdFilename : String
  posX : Int
  posY : Int
  posZ : Int
  posA : Int
  posB : Int
  mbBitfield : Nat
  mbBuildCancelling : Bool
  mbHeatShutdown : Bool
  mbPowerError : Bool
  buildStatus : BuildStatus
  lineNumber : Nat
  fwVariant : Nat
  fwVersion : Nat
  deriving DecidableEq, Repr

/-- The host command record (`gpx->command`) fields the translator reads:
whether M is set and its value, whether a string argument is set and its
value. -/
structure CommandCtx where
  flagM : Bool
  m : Nat
  flagArg : Bool
  arg : String
  deriving DecidableEq, Repr

/-- Session state (`Tio` plus the `Gpx` fields the translator touches).
`waiting` is the shared word of the `waiting`/`waitflag` union; see the
bit assignment at `wSet`.  C `double` fields are modelled as `ℚ`. -/
structure St where
  buf : List Char
  waiting : Nat
  okPending : Bool
  cancelPending : Bool
  listingFiles : Bool
  getPosWhenReady : Bool
  waitClearedByCancel : Bool
  sec : Nat
  sttb : List String
  selectedFilename : String
  programState : Nat
  macrosEnabled : Bool
  positionKnown : Nat
  curX : ℚ
  curY : ℚ
  curZ : ℚ
  curA : ℚ
  curB : ℚ
  excessA : ℚ
  excessB : ℚ
  currentExtruder : Nat
  machine : Machine
  m106AlwaysValve : Bool
  deriving DecidableEq, Repr

/-- `tio_printf` on the session state below capacity: append the formatted
text to the translation buffer. -/
def appendStr (st : St) (s : String) : St :=
  { st with buf := st.buf ++ s.data }

/-- External calls made during one translator invocation, recorded as a
trace: the `port_handler` round-trip, `get_extended_position`, and
recursive `gpx_convert_line` calls. -/
inductive Action where
  | portHandler
  | getExtendedPosition
  | convertLine (line : String)
  deriving DecidableEq, Repr

/-- Per-invocation input of `translate_handler`: the raw reply bytes and
length, the outcome of the `port_handler` round-trip (return value and
decoded response), the current host command record, the current time
(`time(NULL)`), and the `strdup` allocation oracle for the M23 path. -/
structure HandlerInput where
  bytes : List Nat
  len : Nat
  portRval : RVal
  resp : Response
  cmd : CommandCtx
  now : Nat
  strdupOk : Bool
  deriving DecidableEq, Repr

/-- Decimal rendering of a C `double` written with `%0.2f`.  Exact
floating-point formatting is not representable here; the rational value is
rendered exactly instead (no claim depends on this text). -/
def fmtF (q : ℚ) : String := toString q

/-- `translate_extruder_query_response` (gpxresp.c:202): dispatch on the
query command of a tool query (device command 10). -/
def translate_extruder_query_response (st : St) (query extruder_id : Nat)
    (resp : Response) : St :=
  if query = 2 then
    let st := appendStr st " T"
    let st :=
      if st.machine.extruder_count > 1 then appendStr st (toString extruder_id)
      else st
    appendStr st (":" ++ toString resp.temperature)
  else if query = 22 then
    if extruder_id ≠ 0 then
      { st with waiting := wAssign st.waiting 2 (!resp.isReady) }
    else
      { st with waiting := wAssign st.waiting 1 (!resp.isReady) }
  else if query = 30 then appendStr st (" B:" ++ toString resp.temperature)
  else if query = 32 then
    let st :=
      if st.waiting ≠ 0 ∧ ¬wGet st.waiting 0 ∧ resp.temperature = 0 then
        if extruder_id ≠ 0 then { st with waiting := wClear st.waiting 2 }
        else { st with waiting := wClear st.waiting 1 }
      else st
    appendStr st (" /" ++ toString resp.temperature)
  else if query = 33 then
    let st :=
      if st.waiting ≠ 0 ∧ ¬wGet st.waiting 0 ∧ resp.temperature = 0 then
        { st with waiting := wClear st.waiting 3 }
      else st
    appendStr st (" /" ++ toString resp.temperature)
  else if query = 35 then
    { st with waiting := wAssign st.waiting 3 (!resp.isReady) }
  else st

/-- The wait-for-bot-cancel preamble of `case 24` (gpxresp.c:471): a
status outside {RUNNING, PAUSED, CANCELLING} clears `waitForBotCancel`. -/
def case24_precancel (st : St) (status : BuildStatus) : St :=
  if wGet st.waiting 7 then
    match status with
    | .running | .paused | .cancelling => st
    | _ => { st with waiting := wClear st.waiting 7 }
  else st

/-- The M27/wait-for-start reporting branch of `case 24` (gpxresp.c:482),
with its 3-second deadline: before the deadline (status ≠ RUNNING) the
report is suppressed — a remaining time above 4 s additionally clears the
deadline and the start wait (clock discontinuity); otherwise a per-status
line is emitted, with CANCELED falling through to the FINISHED line. -/
def case24_m27 (st : St) (resp : Response) (now : Nat) : St :=
  if st.sec ≠ 0 ∧ resp.buildStatus ≠ .running ∧ now < st.sec then
    -- ignore it if we haven't started yet (with clock-jump escape)
    if st.sec - now > 4 then
      { st with sec := 0, waiting := wClear st.waiting 5 }
    else st
  else
    match resp.buildStatus with
    | .none => appendStr st "\nNot SD printing\n"
    | .running =>
      appendStr { st with sec := 0, waiting := wClear st.waiting 5 }
        ("\nSD printing byte on line " ++ toString resp.lineNumber ++ "/0")
    | .canceled =>
      -- fall through to the finished-normally line
      appendStr
        { appendStr st "\nSD printing cancelled.\n" with
          waiting := 0, getPosWhenReady := false }
        "\nDone printing file\n"
    | .finishedNormally => appendStr st "\nDone printing file\n"
    | .paused =>
      appendStr st
        ("\nSD printing paused at line " ++ toString resp.lineNumber ++ "\n")
    | .cancelling =>
      appendStr st
        ("\nSD printing sleeping at line " ++ toString resp.lineNumber ++ "\n")

/-- The routine (non-M27) branch of `case 24` (gpxresp.c:519): PAUSED
raises `waitForUnpause` and echoes; NONE/RUNNING while unpausing raise
`emptyQueue`; every non-PAUSED status clears `waitForUnpause`. -/
def case24_routine (st : St) (resp : Response) : St :=
  match resp.buildStatus with
  | .none | .running =>
    let st :=
      if wGet st.waiting 8 then { st with waiting := wSet st.waiting 0 }
      else st
    { st with waiting := wClear st.waiting 8 }
  | .paused =>
    appendStr { st with waiting := wSet st.waiting 8 }
      "\n// echo: Waiting for unpause button on the LCD panel\n"
  | _ => { st with waiting := wClear st.waiting 8 }

/-- `case 24` of `translate_handler` (gpxresp.c:470): the build-statistics
state machine. -/
def case24 (st : St) (resp : Response) (cmd : CommandCtx) (now : Nat) : St :=
  let st := case24_precancel st resp.buildStatus
  if wGet st.waiting 5 ∨ (cmd.flagM ∧ cmd.m = 27) then case24_m27 st resp now
  else case24_routine st resp

/-- The `length == 0` path of `translate_handler` (gpxresp.c:296): the
host command had no x3g translation; only M23 (select SD file) is
emulated. -/
def handle_len0 (st : St) (inp : HandlerInput) : St :=
  if inp.cmd.flagM then
    if inp.cmd.m = 23 then
      let i := sttb_find_nocase st.sttb st.selectedFilename
      let st :=
        if 0 ≤ i ∧ inp.strdupOk then
          { st with selectedFilename := st.sttb.getD i.toNat "" }
        else st
      appendStr st
        ("\nFile opened:" ++ st.selectedFilename ++ " Size:0\nFile selected:"
          ++ st.selectedFilename)
    else st
  else st

/-- `case 21` of `translate_handler` (gpxresp.c:427): format the extended
position (per-axis steps-per-mm of the machine profile, `E` from axis A
or B by the current extruder) and, when `getPosWhenReady` is set, record
the device value for every axis not yet in `positionKnown`
(X/Y/Z/A/B = bits 0..4). -/
def case21 (st : St) (resp : Response) : St :=
  let m := st.machine
  let epos : ℚ :=
    if st.currentExtruder = 1 then (resp.posB : ℚ) / m.spmB
    else (resp.posA : ℚ) / m.spmA
  let st1 := appendStr st
    (" X:" ++ fmtF ((resp.posX : ℚ) / m.spmX)
      ++ " Y:" ++ fmtF ((resp.posY : ℚ) / m.spmY)
      ++ " Z:" ++ fmtF ((resp.posZ : ℚ) / m.spmZ)
      ++ " E:" ++ fmtF epos)
  -- the five axis updates test distinct bits of the unmodified
  -- `positionKnown` and assign five distinct fields, so they are recorded
  -- as independent field updates
  if st.getPosWhenReady then
    { st1 with
      curX := if ¬st.positionKnown.testBit 0 then (resp.posX : ℚ) / m.spmX
        else st.curX
      curY := if ¬st.positionKnown.testBit 1 then (resp.posY : ℚ) / m.spmY
        else st.curY
      curZ := if ¬st.positionKnown.testBit 2 then (resp.posZ : ℚ) / m.spmZ
        else st.curZ
      curA := if ¬st.positionKnown.testBit 3 then (resp.posA : ℚ) / m.spmA
        else st.curA
      curB := if ¬st.positionKnown.testBit 4 then (resp.posB : ℚ) / m.spmB
        else st.curB }
  else st1

/-- The command switch of `translate_handler` (gpxresp.c:343), entered
after a successful `port_handler` round-trip.  Returns the new state, the
return value (`rval`, overridden to packet `0x89` by case 23), and any
extra external calls. -/
def handler_switch (st : St) (command extruder : Nat) (inp : HandlerInput) :
    St × RVal × List Action :=
  let resp := inp.resp
  if command = 3 ∨ command = 7 ∨ command = 17 then
    -- clear buffer / abort / reset: waiting = 0 then waitForBotCancel = 1
    ({ st with waiting := wSet 0 7 }, .success, [])
  else if command = 10 then
    let query := inp.bytes.getD 4 0
    (translate_extruder_query_response st query extruder resp, .success, [])
  else if command = 11 then
    if resp.isReady then
      let st := { st with waiting := wClear (wClear st.waiting 0) 4 }
      if st.getPosWhenReady then
        ({ st with getPosWhenReady := false }, .success, [.getExtendedPosition])
      else (st, .success, [])
    else (st, .success, [])
  else if command = 14 then
    if inp.cmd.flagArg then
      (appendStr st ("\nWriting to file: " ++ inp.cmd.arg), .success, [])
    else (st, .success, [])
  else if command = 15 then (appendStr st "\nDone saving file", .success, [])
  else if command = 16 then
    if resp.sdStatus = 7 then
      (appendStr st "\nError:  Not SD printing file not found", .success, [])
    else
      ({ st with buf := [], sec := inp.now + 3, waiting := wSet st.waiting 5 },
       .success, [])
  else if command = 18 then
    if ¬st.listingFiles ∧ inp.cmd.flagM ∧ inp.cmd.m = 21 then
      if resp.sdStatus = 0 then (appendStr st "\nSD card ok", .success, [])
      else (appendStr st "\nSD init fail", .success, [])
    else
      let st :=
        if ¬st.listingFiles then
          { appendStr st "\nBegin file list\n" with
            listingFiles := true, sttb := [] }
        else st
      if resp.sdFilename = "" then
        ({ appendStr st "End file list" with listingFiles := false },
         .success, [])
      else
        ({ appendStr st resp.sdFilename with
           sttb := st.sttb ++ [resp.sdFilename] }, .success, [])
  else if command = 21 then (case21 st resp, .success, [])
  else if command = 23 then
    if resp.mbBitfield = 0 then
      ({ st with waiting := wClear st.waiting 4 }, .success, [])
    else
      if resp.mbBuildCancelling then (st, .packet 0x89, [])
      else if resp.mbHeatShutdown then
        (appendStr { st with buf := [] }
          "Error:  Heaters were shutdown after 30 minutes of inactivity",
         .packet 0x89, [])
      else if resp.mbPowerError then
        (appendStr { st with buf := [] } "Error:  Error detected in system power",
         .packet 0x89, [])
      else (st, .success, [])
  else if command = 24 then (case24 st resp inp.cmd inp.now, .success, [])
  else if command = 27 then
    let variant :=
      if resp.fwVariant = 0x01 then "Makerbot"
      else if resp.fwVariant = 0x80 then "Sailfish" else "Unknown"
    let variant_url :=
      if resp.fwVariant = 0x01 then
        "https://support.makerbot.com/learn/earlier-products/replicator-original/updating-firmware-for-the-makerbot-replicator-via-replicatorg_13302"
      else if resp.fwVariant = 0x80 then "http://www.sailfishfirmware.com"
      else "Unknown"
    if inp.cmd.flagM ∧ inp.cmd.m = 115 then
      (appendStr st
        (" PROTOCOL_VERSION:0.1 FIRMWARE_NAME:" ++ variant
          ++ " FIRMWARE_VERSION:" ++ toString (resp.fwVersion / 100) ++ "."
          ++ toString (resp.fwVersion % 100)
          ++ " FIRMWARE_URL:" ++ variant_url
          ++ " MACHINE_TYPE:" ++ st.machine.mtype
          ++ " EXTRUDER_COUNT:" ++ toString st.machine.extruder_count ++ "\n"),
       .success, [])
    else
      (appendStr st
        (" " ++ variant ++ " v" ++ toString (resp.fwVersion / 100) ++ "."
          ++ toString (resp.fwVersion % 100)),
       .success, [])
  else if command = 135 then
    let st := { st with buf := [] }
    if extruder = 0 then
      ({ st with waiting := wSet (wSet st.waiting 0) 1 }, .success, [])
    else
      ({ st with waiting := wSet (wSet st.waiting 0) 2 }, .success, [])
  else if command = 141 then
    ({ st with buf := [], waiting := wSet (wSet st.waiting 0) 3 }, .success, [])
  else if command = 144 ∨ command = 131 ∨ command = 132 then
    ({ st with buf := [], waiting := wSet st.waiting 0, getPosWhenReady := true },
     .success, [])
  else if command = 133 then
    ({ st with buf := [], waiting := wSet st.waiting 0 }, .success, [])
  else if command = 148 ∨ command = 149 then
    ({ st with buf := [], waiting := wSet st.waiting 4 }, .success, [])
  else (st, .success, [])

/-- `translate_handler` (gpxresp.c:285): emit a pending `ok`, handle
untranslated commands (`length == 0`), drop queueable residue while a
cancel is pending, run `port_handler`, clear the buffer-full wait on a
successful queueable command, then dispatch on the device command. -/
def translate_handler (st : St) (inp : HandlerInput) : St × RVal × List Action :=
  let st :=
    if st.okPending then appendStr { st with okPending := false } "ok" else st
  if inp.len = 0 then (handle_len0 st inp, .success, [])
  else
    let command := inp.bytes.getD 2 0
    let extruder := inp.bytes.getD 3 0
    if st.cancelPending ∧ command.testBit 7 then (st, .success, [])
    else if inp.portRval ≠ .success then (st, inp.portRval, [.portHandler])
    else
      let st :=
        if command.testBit 7 then { st with waiting := wClear st.waiting 6 }
        else st
      let r := handler_switch st command extruder inp
      (r.1, r.2.1, .portHandler :: r.2.2)

/-! ## Result handler, cancel reset, lifecycle -/

/-- Input of `translate_result`: whether the format string is the literal
`"@clear_cancel"`, and otherwise the rendered format+arguments text. -/
structure ResultInput where
  clearCancel : Bool
  text : String
  deriving DecidableEq, Repr

/-- `translate_result` (gpxresp.c:618): handle `@clear_cancel`, else emit a
pending `ok` and append the message as a `// echo: ` line preceded by a
newline when needed. -/
def translate_result (st : St) (inp : ResultInput) : St :=
  if inp.clearCancel then
    if ¬st.cancelPending ∧ st.programState = RUNNING_STATE then
      { st with waiting := wSet st.waiting 9 }
    else
      { st with cancelPending := false, waiting := wSet st.waiting 0 }
  else
    let st :=
      if st.okPending then appendStr { st with okPending := false } "ok" else st
    let st :=
      if st.buf ≠ [] ∧ st.buf.getLast? ≠ some '\n' then appendStr st "\n"
      else st
    appendStr st ("// echo: " ++ inp.text)

/-- `tio_clear_state_for_cancel` (gpxresp.c:180): reset the session to the
canonical cancelled state — program state READY, position unknown, excess
zeroed, `waitClearedByCancel` recorded when a wait was active, all waits
cleared except a fresh `waitForEmptyQueue`, `getPosWhenReady` cleared. -/
def tio_clear_state_for_cancel (st : St) : St :=
  { st with
    programState := READY_STATE
    positionKnown := 0
    excessA := 0
    excessB := 0
    waitClearedByCancel := if st.waiting ≠ 0 then true else st.waitClearedByCancel
    waiting := wSet 0 0
    getPosWhenReady := false }

/-- `tio_initialize` (gpxresp.c:143): canonical initial session state
(cursor reset, flags and waits cleared, deadline cleared, fresh string
table, position unknown, M106-always-valve quirk set). -/
def tio_initialize (st : St) : St :=
  { st with
    buf := []
    waiting := 0
    okPending := false
    cancelPending := false
    listingFiles := false
    getPosWhenReady := false
    waitClearedByCancel := false
    sec := 0
    sttb := []
    positionKnown := 0
    m106AlwaysValve := true }

/-! ## The finalizer `gpx_return_translation`

The recursive `gpx_convert_line(gpx, "M105")` call is modelled by an
oracle `conv : St → St × RVal` giving the parser's effect on the session
state and its return value. -/

/-- Opening lines of `gpx_return_translation` (gpxresp.c:647): force an
ended program state back to READY and enable macros. -/
def fin_force_ready (st : St) : St :=
  { st with
    programState :=
      if st.programState > RUNNING_STATE then READY_STATE else st.programState
    macrosEnabled := true }

/-- The implicit-`M105` head of `gpx_return_translation` (gpxresp.c:647):
force ENDED → READY, enable macros, and issue the implicit `M105` when
the parser succeeded, a wait is active and nothing was emitted.  Returns
the state, the (possibly replaced) return value, and whether the implicit
poll was issued. -/
def fin_top (conv : St → St × RVal) (st : St) (rval : RVal) :
    St × RVal × Bool :=
  let st := fin_force_ready st
  if rval = .success ∧ st.waiting ≠ 0 ∧ st.buf = [] then
    let r := conv st
    (r.1, r.2, true)
  else (st, rval, false)

/-- The error/status switch of `gpx_return_translation` (gpxresp.c:666):
map the return value to host-visible text; device code `0x89` consumes a
requested cancel silently or starts a bot-initiated cancel. -/
def fin_switch (st : St) (rval : RVal) : St × RVal :=
  match rval with
  | .success | .endOfFile => (st, rval)
  | .eoserror =>
    (appendStr { st with buf := [] } "Error: OS error trying to access X3G port",
     rval)
  | .error => (appendStr { st with buf := [] } "Error: GPX error", rval)
  | .esiowrite | .esioread | .esioframe | .esiocrc =>
    (appendStr { st with buf := [] }
      ("Error: Serial communication error on X3G port. code = "
        ++ toString rval.toInt), rval)
  | .esiotimeout =>
    (appendStr { st with buf := [] } "Error: Timeout on X3G port", rval)
  | .packet c =>
    if c = 0x80 then
      (appendStr { st with buf := [] } "Error: X3G generic packet error", rval)
    else if c = 0x82 then
      (appendStr { st with waiting := wSet st.waiting 6 } "Status: Buffer full",
       rval)
    else if c = 0x83 then
      (appendStr { st with buf := [] } "Error: X3G checksum mismatch", rval)
    else if c = 0x84 then
      (appendStr { st with buf := [] } "Error: X3G query packet too big", rval)
    else if c = 0x85 then
      (appendStr { st with buf := [] }
        "Error: X3G command not supported or recognized", rval)
    else if c = 0x87 then
      (appendStr { st with buf := [] } "Error: X3G timeout downstream", rval)
    else if c = 0x88 then
      (appendStr { st with buf := [] } "Error: X3G timeout for tool lock", rval)
    else if c = 0x89 then
      if wGet st.waiting 7 then
        -- we told the bot to abort and this 0x89 means that it did
        ({ st with waiting := wClear st.waiting 7 }, .success)
      else
        -- bot is initiating a cancel
        (appendStr (tio_clear_state_for_cancel { st with cancelPending := true })
          "Build cancelled", rval)
    else if c = 0x8A then
      (appendStr { st with buf := [] } "SD printing", rval)
    else if c = 0x8B then
      (appendStr { st with buf := [] }
        "Error: RC_BOT_OVERHEAT Printer reports overheat condition", rval)
    else if c = 0x8C then
      (appendStr { st with buf := [] } "Error: timeout", rval)
    else
      (appendStr { st with buf := [] }
        ("Error: Unknown error code: " ++ toString rval.toInt), rval)
  | _ =>
    (appendStr { st with buf := [] }
      ("Error: Unknown error code: " ++ toString rval.toInt), rval)

/-- Lines 760–769 of `gpx_return_translation`: when the call cleared the
wait state append `ok` (newline-separated when needed), else strip one
trailing newline. -/
def fin_ok (waiting0 : Nat) (st : St) : St :=
  if waiting0 ≠ 0 ∧ st.waiting = 0 then
    let st :=
      if st.buf ≠ [] ∧ st.buf.getLast? ≠ some '\n' then appendStr st "\n"
      else st
    appendStr st "ok"
  else
    if st.buf ≠ [] ∧ st.buf.getLast? = some '\n' then
      { st with buf := st.buf.dropLast }
    else st

/-- `gpx_return_translation` (gpxresp.c:643): the response finalizer.
Returns the final state, the (possibly replaced) return value, and
whether the implicit `M105` was issued. -/
def gpx_return_translation (conv : St → St × RVal) (st : St) (rval : RVal) :
    St × RVal × Bool :=
  let waiting0 := st.waiting
  let t := fin_top conv st rval
  let s := fin_switch t.1 t.2.1
  (fin_ok waiting0 s.1, s.2, t.2.2)

/-- The post-parse tail of `gpx_write_string_core` (gpxresp.c:787):
`waiting0` is the wait-state snapshot taken before the parse; emit a
pending `ok`, or a `\nok` when the parse cleared the wait, then clear
`okPending`. -/
def write_core_tail (waiting0 : Nat) (st : St) : St :=
  let st :=
    if st.okPending then appendStr st "ok"
    else if st.waiting = 0 ∧ waiting0 ≠ 0 then appendStr st "\nok"
    else st
  { st with okPending := false }

/-- `gpx_write_string_core` (gpxresp.c:775): snapshot the wait state, run
the parser on the line (oracle `conv`), then the `ok` tail. -/
def gpx_write_string_core (conv : St → St × RVal) (st : St) :
    St × RVal :=
  let waiting0 := st.waiting
  let r := conv st
  (write_core_tail waiting0 r.1, r.2)

/-- `gpx_write_string` (gpxresp.c:802). -/
def gpx_write_string (conv : St → St × RVal) (st : St) : St × RVal × Bool :=
  let r := gpx_write_string_core conv st
  gpx_return_translation conv r.1 r.2

/-- The per-line state preparation of the daemon loop (gpxresp.c:989):
reset the translation buffer, clear `waitForBuffer`, and set `okPending`
iff no wait is active. -/
def daemon_prep (st : St) : St :=
  { st with
    buf := []
    waiting := wClear st.waiting 6
    okPending := st.waiting = 0 }

/-- The post-dispatch step of the daemon loop (gpxresp.c:994): clear
`okPending` and append the trailing newline before writing upstream. -/
def daemon_post (st : St) : St :=
  appendStr { st with okPending := false } "\n"

/-! ## Serial speed mapping and connect -/

/-- OS `speed_t` constants used by `speed_from_long`; `b0` is the failure
sentinel `B0`. -/
inductive SpeedT where
  | b0
  | b4800
  | b9600
  | b14400
  | b19200
  | b28800
  | b38400
  | b57600
  | b115200
  deriving DecidableEq, Repr

/-- `speed_from_long` (gpxresp.c:809).  `has14400`/`has28800` model the
platform's `#ifdef B14400`/`#ifdef B28800`; the function returns the
speed constant, the (possibly defaulted) baud rate written back through
the pointer, and the error text appended to the translation by
`tio_log_printf` in the default case. -/
def speed_from_long (has14400 has28800 : Bool) (baudrate : Int) :
    SpeedT × Int × List String :=
  if baudrate = 4800 then (.b4800, baudrate, [])
  else if baudrate = 9600 then (.b9600, baudrate, [])
  else if has14400 ∧ baudrate = 14400 then (.b14400, baudrate, [])
  else if baudrate = 19200 then (.b19200, baudrate, [])
  else if has28800 ∧ baudrate = 28800 then (.b28800, baudrate, [])
  else if baudrate = 38400 then (.b38400, baudrate, [])
  else if baudrate = 57600 then (.b57600, baudrate, [])
  else if baudrate = 0 then (.b115200, 115200, [])  -- 0 means default of 115200
  else if baudrate = 115200 then (.b115200, baudrate, [])
  else (.b0, baudrate,
    ["Error: Unsupported baud rate '" ++ toString baudrate ++ "'\n"])

/-- `gpx_connect` (gpxresp.c:853), up to the external port open: a `B0`
speed is rejected with `ESIOBADBAUD` before any open is attempted; an
open failure is `EOSERROR`; on success the banner `"start\n"` is the
whole translation.  The boolean result records whether an open was
attempted. -/
def gpx_connect (openOk : Bool) (st : St) (speed : SpeedT) :
    RVal × Bool × St :=
  if speed = .b0 then (.esiobadbaud, false, st)
  else if ¬openOk then (.eoserror, true, st)
  else (.success, true, appendStr { st with buf := [] } "start\n")

/-! ## Reachable session states

The operations of the core as an inductive closure: initialization, the
translator on any reply, the result handler, the cancel reset, the
finalizer pieces (its implicit `M105` recursion is itself a parser run,
i.e. a sequence of translator/result callbacks, so the closure covers
it), the `gpx_write_string_core` tail, and the daemon loop's per-line
preparation and post-dispatch steps. -/

inductive Reach : St → Prop where
  | init (st : St) : Reach ( tio_initialize st)
  | handler (st : St) (inp : HandlerInput) (h : Reach st) :
      Reach (translate_handler st inp).1
  | result (st : St) (inp : ResultInput) (h : Reach st) :
      Reach (translate_result st inp)
  | clearCancel (st : St) (h : Reach st) :
      Reach (tio_clear_state_for_cancel st)
  | forceReady (st : St) (h : Reach st) : Reach (fin_force_ready st)
  | finSwitch (st : St) (rval : RVal) (h : Reach st) :
      Reach (fin_switch st rval).1
  | finOk (st : St) (waiting0 : Nat) (h : Reach st) :
      Reach (fin_ok waiting0 st)
  | writeCoreTail (st : St) (waiting0 : Nat) (h : Reach st) :
      Reach (write_core_tail waiting0 st)
  | prep (st : St) (h : Reach st) : Reach (daemon_prep st)
  | post (st : St) (h : Reach st) : Reach (daemon_post st)
  | connect (st : St) (openOk : Bool) (speed : SpeedT) (h : Reach st) :
      Reach (gpx_connect openOk st speed).2.2

/-! ## Helper lemmas on the wait word -/

theorem wGet_wSet_self (w i : Nat) : wGet (wSet w i) i = true := by
  simp [wGet_wSet]

theorem wGet_wSet_ne (w : Nat) {i j : Nat} (h : i ≠ j) :
    wGet (wSet w i) j = wGet w j := by
  simp [wGet_wSet, h]

theorem wGet_wClear_self (w i : Nat) : wGet (wClear w i) i = false := by
  simp [wGet_wClear]

theorem wGet_wClear_ne (w : Nat) {i j : Nat} (h : i ≠ j) :
    wGet (wClear w i) j = wGet w j := by
  simp [wGet_wClear, h]

/-- A word whose set bits all belong to the ten `waitflag` members. -/
def WordOk (w : Nat) : Prop := ∀ j, 10 ≤ j → w.testBit j = false

theorem wordOk_zero : WordOk 0 := fun j _ => Nat.zero_testBit j

theorem wordOk_wSet {w : Nat} {i : Nat} (hw : WordOk w) (hi : i < 10) :
    WordOk (wSet w i) := by
  intro j hj
  have h := wGet_wSet w i j
  simp only [wGet] at h
  rw [h, hw j hj]
  simp
  omega

theorem wordOk_wClear {w : Nat} (i : Nat) (hw : WordOk w) :
    WordOk (wClear w i) := by
  intro j hj
  have h := wGet_wClear w i j
  simp only [wGet] at h
  rw [h, hw j hj]
  simp

theorem wordOk_wAssign {w : Nat} {i : Nat} (b : Bool) (hw : WordOk w)
    (hi : i < 10) : WordOk (wAssign w i b) := by
  unfold wAssign
  split
  · exact wordOk_wSet hw hi
  · exact wordOk_wClear i hw

theorem wordOk_ne_zero {w : Nat} (hw : WordOk w) (h : w ≠ 0) :
    wGet w 0 ∨ wGet w 1 ∨ wGet w 2 ∨ wGet w 3 ∨ wGet w 4 ∨ wGet w 5 ∨
      wGet w 6 ∨ wGet w 7 ∨ wGet w 8 ∨ wGet w 9 := by
  by_contra hall
  push_neg at hall
  simp only [wGet] at hall
  apply h
  apply Nat.eq_of_testBit_eq
  intro j
  rw [Nat.zero_testBit]
  by_cases hj : 10 ≤ j
  · exact hw j hj
  · obtain ⟨h0, h1, h2, h3, h4, h5, h6, h7, h8, h9⟩ := hall
    interval_cases j <;> simp_all

/-! ## Claim theorems -/

/-- C10: `sttb_add` is atomic on failure — whenever it returns the NULL
sentinel the element count and every stored element are unchanged (the
element list is unchanged as a whole), and on success the element list is
exactly the old list with the new string appended, so the count grows by
one and all previously stored elements are unchanged. -/
theorem sttb_add_atomic (ptrSize : Nat) (reallocOk dupOk : Bool) (t : Sttb)
    (s : String) :
    (sttb_add ptrSize reallocOk dupOk t s).2.elems =
      (if ((sttb_add ptrSize reallocOk dupOk t s).1).isSome
       then t.elems ++ [s] else t.elems) ∧
    (sttb_add ptrSize reallocOk dupOk t s).2.cs =
      (if ((sttb_add ptrSize reallocOk dupOk t s).1).isSome
       then t.cs + 1 else t.cs) := by
  obtain ⟨rgs, cb, cbe⟩ := t
  cases rgs with
  | none => simp [sttb_add, Sttb.elems, Sttb.cs]
  | some l =>
    simp only [sttb_add, Sttb.elems, Sttb.cs]
    split_ifs <;> simp_all

/-- C9: the baud conversion maps exactly the rates 4800, 9600, 19200,
38400, 57600, 115200 (plus 14400/28800 when the platform defines them) to
their speed constants, maps 0 to 115200 (writing the default back), and
yields the sentinel `B0` for every other value; `gpx_connect` rejects
`B0` with `ESIOBADBAUD` before attempting to open the port. -/
theorem speed_from_long_spec (has14400 has28800 openOk : Bool) (b : Int)
    (st : St) :
    speed_from_long has14400 has28800 4800 = (.b4800, 4800, []) ∧
    speed_from_long has14400 has28800 9600 = (.b9600, 9600, []) ∧
    speed_from_long has14400 has28800 19200 = (.b19200, 19200, []) ∧
    speed_from_long has14400 has28800 38400 = (.b38400, 38400, []) ∧
    speed_from_long has14400 has28800 57600 = (.b57600, 57600, []) ∧
    speed_from_long has14400 has28800 115200 = (.b115200, 115200, []) ∧
    speed_from_long has14400 has28800 0 = (.b115200, 115200, []) ∧
    (speed_from_long has14400 has28800 14400).1 =
      (if has14400 then SpeedT.b14400 else SpeedT.b0) ∧
    (speed_from_long has14400 has28800 28800).1 =
      (if has28800 then SpeedT.b28800 else SpeedT.b0) ∧
    ((speed_from_long has14400 has28800 b).1 = SpeedT.b0 ↔
      ¬(b = 4800 ∨ b = 9600 ∨ (has14400 = true ∧ b = 14400) ∨ b = 19200 ∨
        (has28800 = true ∧ b = 28800) ∨ b = 38400 ∨ b = 57600 ∨ b = 0 ∨
        b = 115200)) ∧
    gpx_connect openOk st SpeedT.b0 = (.esiobadbaud, false, st) := by
  refine ⟨by norm_num [speed_from_long], by norm_num [speed_from_long],
    by norm_num [speed_from_long], by norm_num [speed_from_long],
    by norm_num [speed_from_long], by norm_num [speed_from_long],
    by norm_num [speed_from_long],
    by cases has14400 <;> norm_num [speed_from_long],
    by cases has28800 <;> norm_num [speed_from_long],
    ?_, by simp [gpx_connect]⟩
  unfold speed_from_long
  split_ifs <;> simp_all

/-- NUL-terminator invariant of the bounded translation buffer: while the
cursor is below capacity the byte at the cursor is NUL; once the cursor
has overshot (a truncating append), the byte at `cap − 1` is NUL. -/
def TioInv (cap : Nat) (st : TioBuf) : Prop :=
  (st.cur < cap → st.buf st.cur = 0) ∧ (cap ≤ st.cur → st.buf (cap - 1) = 0)

/-- C1 counterexample: the cursor *can* exceed the buffer capacity.  With
capacity 4, appending a 10-byte formatted string from the initial state
advances the cursor to 10 > 4 (`vsnprintf` returns the untruncated length
and `tio_vprintf` adds it to the cursor unconditionally). -/
theorem tio_vprintf_cursor_overshoot :
    4 < ((tio_vprintf 4 { buf := fun _ => 0, cur := 0 }
      (List.replicate 10 65)).1).cur := by
  decide

/-- C1 (amended): once the cursor has reached capacity every further
append is silently dropped, leaving buffer and cursor unchanged; an
append from below capacity advances the cursor by the full formatted
length — possibly past capacity when the text is truncated — but never
writes at or beyond capacity, and a NUL terminator is maintained at the
cursor while it is below capacity and at `capacity − 1` once it has
overshot. -/
theorem tio_vprintf_buffer_safety (cap : Nat) (st : TioBuf) (s : List Nat)
    (hinv : TioInv cap st) :
    (cap ≤ st.cur → tio_vprintf cap st s = (st, 0)) ∧
    TioInv cap (tio_vprintf cap st s).1 ∧
    (∀ j, cap ≤ j → (tio_vprintf cap st s).1.buf j = st.buf j) ∧
    (tio_vprintf cap st s).1.cur =
      (if cap ≤ st.cur ∨ s.length = 0 then st.cur else st.cur + s.length) := by
  by_cases hc : st.cur ≥ cap
  · have he : tio_vprintf cap st s = (st, 0) := by
      simp [tio_vprintf, hc]
    rw [he]
    exact ⟨fun _ => rfl, hinv, fun j _ => rfl, by simp [hc]⟩
  · have hlt : st.cur < cap := by omega
    simp only [tio_vprintf, if_neg hc, vsnprintfModel]
    refine ⟨fun h => absurd h (by omega), ⟨?_, ?_⟩, ?_, ?_⟩
    · -- byte at the (possibly advanced) cursor is NUL while below capacity
      dsimp only
      intro hcur
      by_cases hs : s.length > 0
      · rw [if_pos hs] at hcur ⊢
        have hk : min s.length (cap - st.cur - 1) = s.length := by omega
        rw [if_neg (by omega), if_pos (by omega)]
      · rw [if_neg hs] at hcur ⊢
        have hk : min s.length (cap - st.cur - 1) = 0 := by omega
        rw [if_neg (by omega), if_pos (by omega)]
    · -- byte at capacity − 1 is NUL once the cursor has overshot
      dsimp only
      intro hcur
      by_cases hs : s.length > 0
      · rw [if_pos hs] at hcur
        have hk : min s.length (cap - st.cur - 1) = cap - st.cur - 1 := by
          omega
        rw [if_neg (by omega), if_pos (by omega)]
      · rw [if_neg hs] at hcur
        omega
    · -- no write at or beyond capacity
      intro j hj
      rw [if_neg (by omega), if_neg (by omega)]
    · -- cursor advance
      dsimp only
      by_cases hs : s.length = 0
      · simp [hs]
      · rw [if_pos (by omega), if_neg (by omega)]

/-- C1 witness for the amended theorem: the initial buffer state satisfies
the invariant, and the theorem applies to it. -/
theorem tio_vprintf_buffer_safety_witness :
    TioInv 4 { buf := fun _ => 0, cur := 0 } ∧
    ((4 ≤ (0 : Nat) →
        tio_vprintf 4 { buf := fun _ => 0, cur := 0 } [65] =
          ({ buf := fun _ => 0, cur := 0 }, 0)) ∧
      TioInv 4 (tio_vprintf 4 { buf := fun _ => 0, cur := 0 } [65]).1 ∧
      (∀ j, 4 ≤ j →
        (tio_vprintf 4 { buf := fun _ => 0, cur := 0 } [65]).1.buf j =
          (fun _ => (0 : Nat)) j) ∧
      (tio_vprintf 4 { buf := fun _ => 0, cur := 0 } [65]).1.cur =
        (if 4 ≤ (0 : Nat) ∨ ([65] : List Nat).length = 0 then (0 : Nat)
         else 0 + ([65] : List Nat).length)) :=
  ⟨⟨fun _ => rfl, fun h => absurd h (by decide)⟩,
    tio_vprintf_buffer_safety 4 { buf := fun _ => 0, cur := 0 } [65]
      ⟨fun _ => rfl, fun h => absurd h (by decide)⟩⟩

theorem fin_ok_waiting_eq (w0 : Nat) (st : St) :
    (fin_ok w0 st).waiting = st.waiting := by
  unfold fin_ok appendStr
  split_ifs <;> rfl

/-- C3: device cancel code `0x89` in the finalizer.  If `waitForBotCancel`
is set, the flag is cleared, the status maps to SUCCESS and no text is
emitted; otherwise `cancelPending` is set, the session is reset — program
state READY, all waits zeroed then a fresh `emptyQueue` wait set,
`getPosWhenReady` cleared, `waitClearedByCancel` recorded when a wait was
active — and the text `"Build cancelled"` is appended. -/
theorem fin_switch_cancel (st : St) :
    (fin_switch st (.packet 0x89)).2 =
      (if wGet st.waiting 7 then RVal.success else .packet 0x89) ∧
    wGet (fin_switch st (.packet 0x89)).1.waiting 7 = false ∧
    (fin_switch st (.packet 0x89)).1.buf =
      (if wGet st.waiting 7 then st.buf
       else st.buf ++ "Build cancelled".data) ∧
    (fin_switch st (.packet 0x89)).1.cancelPending =
      (if wGet st.waiting 7 then st.cancelPending else true) ∧
    (fin_switch st (.packet 0x89)).1.programState =
      (if wGet st.waiting 7 then st.programState else READY_STATE) ∧
    (fin_switch st (.packet 0x89)).1.waiting =
      (if wGet st.waiting 7 then wClear st.waiting 7 else wSet 0 0) ∧
    wGet (fin_switch st (.packet 0x89)).1.waiting 0 =
      (if wGet st.waiting 7 then wGet st.waiting 0 else true) ∧
    (fin_switch st (.packet 0x89)).1.getPosWhenReady =
      (if wGet st.waiting 7 then st.getPosWhenReady else false) ∧
    (fin_switch st (.packet 0x89)).1.waitClearedByCancel =
      (if wGet st.waiting 7 then st.waitClearedByCancel
       else if st.waiting ≠ 0 then true else st.waitClearedByCancel) := by
  by_cases h : wGet st.waiting 7
  · simp [fin_switch, h, wGet_wClear_self, wGet_wClear_ne]
  · simp [fin_switch, h, tio_clear_state_for_cancel, appendStr]
    constructor
    · show wGet (wSet 0 0) 7 = false
      decide
    · show wGet (wSet 0 0) 0 = true
      decide

/-- C5: the finalizer issues the implicit temperature poll (recursive
parse of `"M105"`) exactly when the parser returned SUCCESS, the session
is marked waiting, and the translation buffer is empty. -/
theorem finalizer_implicit_m105 (conv : St → St × RVal) (st : St)
    (rval : RVal) :
    (gpx_return_translation conv st rval).2.2 = true ↔
      (rval = RVal.success ∧ st.waiting ≠ 0 ∧ st.buf = []) := by
  have h1 : (fin_force_ready st).waiting = st.waiting := rfl
  have h2 : (fin_force_ready st).buf = st.buf := rfl
  by_cases hr : rval = RVal.success
  · subst hr
    by_cases hw : st.waiting = 0
    · simp [gpx_return_translation, fin_top, h1, h2, hw]
    · by_cases hb : st.buf = []
      · simp [gpx_return_translation, fin_top, h1, h2, hw, hb]
      · simp [gpx_return_translation, fin_top, h1, h2, hw, hb]
  · simp [gpx_return_translation, fin_top, hr]

/-- C4: the finalizer's trailing-ok rule.  Writing `mid` for the state
after the error/status switch (whose buffer holds this call's
translation): when the session was waiting before the call and is no
longer waiting after it, `ok` is appended — preceded by a newline when
the buffer is non-empty and does not already end in one; otherwise a
single trailing newline, when present, is stripped. -/
theorem finalizer_trailing_ok (conv : St → St × RVal) (st : St)
    (rval : RVal) :
    (gpx_return_translation conv st rval).1.buf =
      (let mid :=
        (fin_switch (fin_top conv st rval).1 (fin_top conv st rval).2.1).1
       if st.waiting ≠ 0 ∧ (gpx_return_translation conv st rval).1.waiting = 0
       then
         (if mid.buf ≠ [] ∧ mid.buf.getLast? ≠ some '\n'
          then mid.buf ++ ['\n'] else mid.buf) ++ "ok".data
       else
         if mid.buf ≠ [] ∧ mid.buf.getLast? = some '\n'
         then mid.buf.dropLast else mid.buf) := by
  show (gpx_return_translation conv st rval).1.buf = _
  unfold gpx_return_translation
  dsimp only
  rw [fin_ok_waiting_eq]
  generalize (fin_switch (fin_top conv st rval).1 (fin_top conv st rval).2.1).1
    = mid
  unfold fin_ok appendStr
  split_ifs <;> simp_all

/-! ## Concrete states for witnesses and counterexamples -/

/-- A concrete machine profile (single extruder, unit steps-per-mm). -/
def mach0 : Machine :=
  { spmX := 1, spmY := 1, spmZ := 1, spmA := 1, spmB := 1,
    extruder_count := 1, mtype := "r2" }

/-- A concrete idle session state. -/
def st0 : St :=
  { buf := [], waiting := 0, okPending := false, cancelPending := false,
    listingFiles := false, getPosWhenReady := false,
    waitClearedByCancel := false, sec := 0, sttb := [],
    selectedFilename := "", programState := READY_STATE,
    macrosEnabled := false, positionKnown := 0,
    curX := 0, curY := 0, curZ := 0, curA := 0, curB := 0,
    excessA := 0, excessB := 0, currentExtruder := 0, machine := mach0,
    m106AlwaysValve := false }

/-- A concrete decoded response (all-zero, build status NONE). -/
def resp0 : Response :=
  { temperature := 0, isReady := false, sdStatus := 0, sdFilename := "",
    posX := 0, posY := 0, posZ := 0, posA := 0, posB := 0,
    mbBitfield := 0, mbBuildCancelling := false, mbHeatShutdown := false,
    mbPowerError := false, buildStatus := .none, lineNumber := 0,
    fwVariant := 0, fwVersion := 0 }

/-- A concrete host command record (no M command). -/
def cmd0 : CommandCtx := { flagM := false, m := 0, flagArg := false, arg := "" }

/-! ## C2: the build-status deadline -/

theorem case24_precancel_fields (st : St) (s : BuildStatus) :
    (case24_precancel st s).buf = st.buf ∧
    (case24_precancel st s).sec = st.sec ∧
    wGet (case24_precancel st s).waiting 5 = wGet st.waiting 5 := by
  unfold case24_precancel
  split_ifs with h
  · cases s <;> simp [wGet_wClear]
  · exact ⟨rfl, rfl, rfl⟩

theorem appendStr_buf_ne (st : St) (s : String) (h : s.data ≠ []) :
    (appendStr st s).buf ≠ st.buf := by
  simp [appendStr, h]

theorem case24_m27_spec (st : St) (resp : Response) (now : Nat) :
    ((case24_m27 st resp now).buf = st.buf ↔
      (st.sec ≠ 0 ∧ resp.buildStatus ≠ BuildStatus.running ∧ now < st.sec)) ∧
    (st.sec ≠ 0 ∧ resp.buildStatus ≠ BuildStatus.running ∧ now < st.sec ∧
        4 < st.sec - now →
      (case24_m27 st resp now).sec = 0 ∧
        wGet (case24_m27 st resp now).waiting 5 = false) := by
  unfold case24_m27
  by_cases hc : st.sec ≠ 0 ∧ resp.buildStatus ≠ BuildStatus.running ∧
      now < st.sec
  · rw [if_pos hc]
    by_cases hd : st.sec - now > 4
    · rw [if_pos hd]
      exact ⟨by simpa using hc, fun _ => ⟨rfl, by simp [wGet_wClear]⟩⟩
    · rw [if_neg hd]
      exact ⟨by simpa using hc, fun hh => absurd hh.2.2.2 (by omega)⟩
  · rw [if_neg hc]
    cases hres : resp.buildStatus <;> rw [hres] at hc <;> dsimp only
    · exact ⟨iff_of_false
        (appendStr_buf_ne _ "\nNot SD printing\n" (by decide)) hc,
        fun hh => absurd ⟨hh.1, hh.2.1, hh.2.2.1⟩ hc⟩
    · exact ⟨iff_of_false
        (appendStr_buf_ne _
          ("\nSD printing byte on line " ++ toString resp.lineNumber ++ "/0")
          (by simp)) hc,
        fun hh => absurd ⟨hh.1, hh.2.1, hh.2.2.1⟩ hc⟩
    · exact ⟨iff_of_false
        (appendStr_buf_ne _ "\nDone printing file\n" (by decide)) hc,
        fun hh => absurd ⟨hh.1, hh.2.1, hh.2.2.1⟩ hc⟩
    · exact ⟨iff_of_false
        (appendStr_buf_ne _
          ("\nSD printing paused at line " ++ toString resp.lineNumber ++ "\n")
          (by simp)) hc,
        fun hh => absurd ⟨hh.1, hh.2.1, hh.2.2.1⟩ hc⟩
    · refine ⟨iff_of_false ?_ hc,
        fun hh => absurd ⟨hh.1, hh.2.1, hh.2.2.1⟩ hc⟩
      show ((st.buf ++ "\nSD printing cancelled.\n".data)
        ++ "\nDone printing file\n".data) ≠ st.buf
      simp
    · exact ⟨iff_of_false
        (appendStr_buf_ne _
          ("\nSD printing sleeping at line " ++ toString resp.lineNumber
            ++ "\n")
          (by simp)) hc,
        fun hh => absurd ⟨hh.1, hh.2.1, hh.2.2.1⟩ hc⟩

/-- C2 counterexample: with the deadline at 100, current time 10 (so the
remaining time 90 exceeds 4 s), wait-for-start set and build status NONE
(≠ RUNNING), the code clears the deadline but still suppresses the status
report on this call (the translation buffer stays empty), whereas the
claim requires output not to be suppressed when the remaining time
exceeds 4 seconds. -/
theorem case24_clock_jump_still_suppresses :
    (case24 { st0 with sec := 100, waiting := wSet 0 5 } resp0 cmd0 10).buf =
      ({ st0 with sec := 100, waiting := wSet 0 5 } : St).buf ∧
    ¬(({ st0 with sec := 100, waiting := wSet 0 5 } : St).sec - 10 ≤ 4) := by
  decide

/-- C2 (amended): in the wait-for-start/M27 branch of the build-status
machine, the status report is suppressed iff the deadline is set
(`sec > 0`), the reported status is not RUNNING and the current time is
before the deadline — regardless of the remaining time; when the
remaining time additionally exceeds 4 seconds (clock jump), the deadline
and the start wait are cleared on top of the suppression, so the next
report goes through. -/
theorem case24_deadline (st : St) (resp : Response) (cmd : CommandCtx)
    (now : Nat)
    (hb : wGet st.waiting 5 = true ∨ (cmd.flagM = true ∧ cmd.m = 27)) :
    ((case24 st resp cmd now).buf = st.buf ↔
      (st.sec ≠ 0 ∧ resp.buildStatus ≠ BuildStatus.running ∧ now < st.sec)) ∧
    (st.sec ≠ 0 ∧ resp.buildStatus ≠ BuildStatus.running ∧ now < st.sec ∧
        4 < st.sec - now →
      (case24 st resp cmd now).sec = 0 ∧
        wGet (case24 st resp cmd now).waiting 5 = false) := by
  obtain ⟨hbuf, hsec, hw5⟩ := case24_precancel_fields st resp.buildStatus
  have hcond : wGet (case24_precancel st resp.buildStatus).waiting 5 = true ∨
      (cmd.flagM = true ∧ cmd.m = 27) := by
    rcases hb with h | h
    · exact Or.inl (by rw [hw5]; exact h)
    · exact Or.inr h
  unfold case24
  dsimp only
  rw [if_pos hcond]
  obtain ⟨h1, h2⟩ :=
    case24_m27_spec (case24_precancel st resp.buildStatus) resp now
  rw [hbuf] at h1
  rw [hsec] at h1 h2
  exact ⟨h1, h2⟩

/-- C2 witness: a state with wait-for-start set, deadline 10 and current
time 3 (remaining 7 s) satisfies the amended theorem's hypothesis, and
the theorem applies: the report is suppressed and the deadline cleared. -/
theorem case24_deadline_witness :
    (wGet ({ st0 with sec := 10, waiting := wSet 0 5 } : St).waiting 5 = true ∨
      (cmd0.flagM = true ∧ cmd0.m = 27)) ∧
    (((case24 { st0 with sec := 10, waiting := wSet 0 5 } resp0 cmd0 3).buf =
        ({ st0 with sec := 10, waiting := wSet 0 5 } : St).buf ↔
      (({ st0 with sec := 10, waiting := wSet 0 5 } : St).sec ≠ 0 ∧
        resp0.buildStatus ≠ BuildStatus.running ∧
        3 < ({ st0 with sec := 10, waiting := wSet 0 5 } : St).sec)) ∧
    (({ st0 with sec := 10, waiting := wSet 0 5 } : St).sec ≠ 0 ∧
        resp0.buildStatus ≠ BuildStatus.running ∧
        3 < ({ st0 with sec := 10, waiting := wSet 0 5 } : St).sec ∧
        4 < ({ st0 with sec := 10, waiting := wSet 0 5 } : St).sec - 3 →
      (case24 { st0 with sec := 10, waiting := wSet 0 5 } resp0 cmd0 3).sec =
          0 ∧
        wGet (case24 { st0 with sec := 10, waiting := wSet 0 5 } resp0 cmd0
          3).waiting 5 = false)) :=
  ⟨Or.inl (by decide),
    case24_deadline { st0 with sec := 10, waiting := wSet 0 5 } resp0 cmd0 3
      (Or.inl (by decide))⟩

/-! ## C6: M23 select-SD-file emulation -/

theorem sttb_find_from_found (l : List String) (s : String) (i j : Nat)
    (h : sttb_find_from l s i = Int.ofNat j) :
    i ≤ j ∧ j - i < l.length ∧ strcaseEq s (l.getD (j - i) "") = true ∧
      ∀ k, k < j - i → strcaseEq s (l.getD k "") = false := by
  induction l generalizing i with
  | nil => simp [sttb_find_from] at h
  | cons x xs ih =>
    rw [sttb_find_from] at h
    by_cases hx : strcaseEq s x
    · rw [if_pos hx] at h
      have hij : i = j := Int.ofNat.inj h
      subst hij
      refine ⟨le_refl i, by simp, ?_, ?_⟩
      · simpa [Nat.sub_self] using hx
      · intro k hk
        omega
    · rw [if_neg hx] at h
      obtain ⟨h1, h2, h3, h4⟩ := ih (i + 1) h
      refine ⟨by omega, by simp only [List.length_cons]; omega, ?_, ?_⟩
      · have he : j - i = (j - (i + 1)) + 1 := by omega
        rw [he, List.getD_cons_succ]
        exact h3
      · intro k hk
        cases k with
        | zero =>
          simp only [List.getD_cons_zero]
          simpa using hx
        | succ k' =>
          rw [List.getD_cons_succ]
          exact h4 k' (by omega)

theorem sttb_find_from_none (l : List String) (s : String) (i : Nat)
    (h : sttb_find_from l s i = -1) :
    ∀ k, k < l.length → strcaseEq s (l.getD k "") = false := by
  induction l generalizing i with
  | nil => intro k hk; simp at hk
  | cons x xs ih =>
    rw [sttb_find_from] at h
    by_cases hx : strcaseEq s x
    · rw [if_pos hx] at h
      exfalso
      have hge : (0 : Int) ≤ Int.ofNat i := Int.ofNat_nonneg i
      rw [h] at hge
      norm_num at hge
    · rw [if_neg hx] at h
      intro k hk
      cases k with
      | zero =>
        simp only [List.getD_cons_zero]
        simpa using hx
      | succ k' =>
        rw [List.getD_cons_succ]
        exact ih (i + 1) h k' (by simpa using hk)

/-- C6: in the `length == 0` path for host `M23`, the selected filename
is looked up case-insensitively in the string table; when found (first
match wins — every earlier entry mismatches), the caller's name is
replaced by the cached case-exact entry; the response appended is
`"\nFile opened:<name> Size:0\nFile selected:<name>"` with that canonical
name, and the translator returns SUCCESS. -/
theorem m23_select (st : St) (inp : HandlerInput) (hok : st.okPending = false)
    (hdup : inp.strdupOk = true) (hlen : inp.len = 0)
    (hm : inp.cmd.flagM = true) (hm23 : inp.cmd.m = 23) :
    (0 ≤ sttb_find_nocase st.sttb st.selectedFilename →
      (translate_handler st inp).1.selectedFilename =
        st.sttb.getD (sttb_find_nocase st.sttb st.selectedFilename).toNat ""
        ∧
      (translate_handler st inp).1.buf =
        st.buf ++ ("\nFile opened:"
          ++ st.sttb.getD (sttb_find_nocase st.sttb st.selectedFilename).toNat
            ""
          ++ " Size:0\nFile selected:"
          ++ st.sttb.getD (sttb_find_nocase st.sttb st.selectedFilename).toNat
            "").data) ∧
    (sttb_find_nocase st.sttb st.selectedFilename < 0 →
      (translate_handler st inp).1.selectedFilename = st.selectedFilename ∧
      (translate_handler st inp).1.buf =
        st.buf ++ ("\nFile opened:" ++ st.selectedFilename
          ++ " Size:0\nFile selected:" ++ st.selectedFilename).data) ∧
    (translate_handler st inp).2.1 = RVal.success ∧
    (∀ j : Nat, sttb_find_nocase st.sttb st.selectedFilename = Int.ofNat j →
      strcaseEq st.selectedFilename (st.sttb.getD j "") = true ∧
      ∀ k, k < j → strcaseEq st.selectedFilename (st.sttb.getD k "") = false)
    ∧
    (sttb_find_nocase st.sttb st.selectedFilename = -1 →
      ∀ k, k < st.sttb.length →
        strcaseEq st.selectedFilename (st.sttb.getD k "") = false) := by
  have hh : translate_handler st inp = (handle_len0 st inp, .success, []) := by
    unfold translate_handler
    rw [hok, hlen]
    simp
  have hlh : handle_len0 st inp =
      (let i := sttb_find_nocase st.sttb st.selectedFilename
       let st1 :=
        if 0 ≤ i ∧ inp.strdupOk then
          { st with selectedFilename := st.sttb.getD i.toNat "" }
        else st
       appendStr st1
        ("\nFile opened:" ++ st1.selectedFilename ++ " Size:0\nFile selected:"
          ++ st1.selectedFilename)) := by
    unfold handle_len0
    rw [hm, hm23]
    simp
  refine ⟨?_, ?_, by rw [hh], ?_, ?_⟩
  · intro hge
    rw [hh]
    dsimp only
    rw [hlh]
    dsimp only
    rw [if_pos ⟨hge, hdup⟩]
    exact ⟨rfl, rfl⟩
  · intro hlt
    rw [hh]
    dsimp only
    rw [hlh]
    dsimp only
    rw [if_neg (by intro hcc; exact absurd hcc.1 (by omega))]
    exact ⟨rfl, rfl⟩
  · intro j hj
    obtain ⟨h1, h2, h3, h4⟩ :=
      sttb_find_from_found st.sttb st.selectedFilename 0 j hj
    exact ⟨by simpa using h3, fun k hk => h4 k (by omega)⟩
  · intro hnone
    exact sttb_find_from_none st.sttb st.selectedFilename 0 hnone

/-- Concrete state for the C6 witness: table `["ABC.gco"]`, selection
`"abc.gco"`. -/
def stW6 : St :=
  { st0 with sttb := ["ABC.gco"], selectedFilename := "abc.gco" }

/-- Handler input for the C6 witness: host command M23, empty reply. -/
def inpW6 : HandlerInput :=
  { bytes := [], len := 0, portRval := .success, resp := resp0,
    cmd := { flagM := true, m := 23, flagArg := false, arg := "" },
    now := 0, strdupOk := true }

/-- C6 witness: the case-insensitive lookup succeeds (index 0) and the
theorem applies. -/
theorem m23_select_witness :
    (translate_handler stW6 inpW6).1.selectedFilename =
      stW6.sttb.getD (sttb_find_nocase stW6.sttb stW6.selectedFilename).toNat
        "" ∧
    (translate_handler stW6 inpW6).1.buf =
      stW6.buf ++ ("\nFile opened:"
        ++ stW6.sttb.getD
          (sttb_find_nocase stW6.sttb stW6.selectedFilename).toNat ""
        ++ " Size:0\nFile selected:"
        ++ stW6.sttb.getD
          (sttb_find_nocase stW6.sttb stW6.selectedFilename).toNat "").data :=
  (m23_select stW6 inpW6 rfl rfl rfl rfl rfl).1 (by decide)

/-! ## C8: cancel-drain drop -/

/-- C8 counterexample: with `okPending` set alongside `cancelPending`, a
queueable reply (command byte `0x89`, top bit set) is dropped with
SUCCESS and no port-handler call, but the session state *is* modified:
the pending-`ok` preamble appends `ok` to the translation buffer and
clears `okPending` — contradicting the claim's "without modifying the
translation buffer ... or any other session state". -/
theorem cancel_drain_modifies_state :
    ({ st0 with okPending := true, cancelPending := true } : St).cancelPending
      = true ∧
    (([0, 0, 137, 0, 0] : List Nat).getD 2 0).testBit 7 = true ∧
    (translate_handler { st0 with okPending := true, cancelPending := true }
      { bytes := [0, 0, 137, 0, 0], len := 5, portRval := .success,
        resp := resp0, cmd := cmd0, now := 0, strdupOk := true }).2.1 =
      RVal.success ∧
    (translate_handler { st0 with okPending := true, cancelPending := true }
      { bytes := [0, 0, 137, 0, 0], len := 5, portRval := .success,
        resp := resp0, cmd := cmd0, now := 0, strdupOk := true }).2.2 = [] ∧
    ¬((translate_handler { st0 with okPending := true, cancelPending := true }
      { bytes := [0, 0, 137, 0, 0], len := 5, portRval := .success,
        resp := resp0, cmd := cmd0, now := 0, strdupOk := true }).1 =
      { st0 with okPending := true, cancelPending := true }) := by
  decide

/-- C8 (amended): while `cancelPending` is set, a queueable reply (top
bit of the command id set) is dropped: the translator returns SUCCESS
immediately, never invokes the port handler, and — setting aside the
pending-`ok` preamble that applies to every reply, excluded here by
`okPending = false` — leaves the translation buffer, the wait flags and
all other session state unchanged. -/
theorem cancel_drain_drop (st : St) (inp : HandlerInput)
    (hok : st.okPending = false) (hcp : st.cancelPending = true)
    (hlen : inp.len ≠ 0) (htop : (inp.bytes.getD 2 0).testBit 7 = true) :
    translate_handler st inp = (st, RVal.success, []) := by
  unfold translate_handler
  rw [hok]
  simp only [Bool.false_eq_true, if_false]
  rw [if_neg hlen, if_pos ⟨hcp, htop⟩]

/-- C8 witness: concrete drop of a queueable reply while cancelling. -/
theorem cancel_drain_drop_witness :
    translate_handler { st0 with cancelPending := true }
      { bytes := [0, 0, 137, 0, 0], len := 5, portRval := .success,
        resp := resp0, cmd := cmd0, now := 0, strdupOk := true } =
      ({ st0 with cancelPending := true }, RVal.success, []) :=
  cancel_drain_drop { st0 with cancelPending := true }
    { bytes := [0, 0, 137, 0, 0], len := 5, portRval := .success,
      resp := resp0, cmd := cmd0, now := 0, strdupOk := true }
    rfl rfl (by decide) (by decide)

/-! ## C7: the aggregate wait invariant over reachable states -/

theorem wordOk_query (st : St) (q e : Nat) (resp : Response)
    (hw : WordOk st.waiting) :
    WordOk (translate_extruder_query_response st q e resp).waiting := by
  unfold translate_extruder_query_response
  dsimp only
  split_ifs <;>
    first
      | exact hw
      | exact wordOk_wAssign _ hw (by omega)
      | exact wordOk_wClear _ hw

theorem wordOk_case24_precancel (st : St) (s : BuildStatus)
    (hw : WordOk st.waiting) : WordOk (case24_precancel st s).waiting := by
  unfold case24_precancel
  split_ifs with h
  · cases s
    all_goals first | exact hw | exact wordOk_wClear _ hw
  · exact hw

theorem wordOk_case24_m27 (st : St) (resp : Response) (now : Nat)
    (hw : WordOk st.waiting) : WordOk (case24_m27 st resp now).waiting := by
  unfold case24_m27
  split_ifs
  · exact wordOk_wClear _ hw
  · exact hw
  · cases resp.buildStatus <;> dsimp only <;>
      first
        | exact hw
        | exact wordOk_wClear _ hw
        | exact wordOk_zero

theorem wordOk_case24_routine (st : St) (resp : Response)
    (hw : WordOk st.waiting) : WordOk (case24_routine st resp).waiting := by
  unfold case24_routine
  cases resp.buildStatus <;> dsimp only <;> (try split_ifs) <;>
    first
      | exact wordOk_wClear _ (wordOk_wSet hw (by omega))
      | exact wordOk_wClear _ hw
      | exact wordOk_wSet hw (by omega)

theorem wordOk_ite {c : Prop} [Decidable c] {a b : St}
    (ha : WordOk a.waiting) (hb : WordOk b.waiting) :
    WordOk (if c then a else b).waiting := by
  split_ifs <;> assumption

theorem wordOk_case24 (st : St) (resp : Response) (cmd : CommandCtx)
    (now : Nat) (hw : WordOk st.waiting) :
    WordOk (case24 st resp cmd now).waiting := by
  have h1 := wordOk_case24_precancel st resp.buildStatus hw
  unfold case24
  exact wordOk_ite (wordOk_case24_m27 _ resp now h1)
    (wordOk_case24_routine _ resp h1)

theorem case21_waiting (st : St) (resp : Response) :
    (case21 st resp).waiting = st.waiting := by
  unfold case21
  dsimp only
  split_ifs <;> rfl

theorem wordOk_handler_switch (st : St) (c e : Nat) (inp : HandlerInput)
    (hw : WordOk st.waiting) :
    WordOk (handler_switch st c e inp).1.waiting := by
  unfold handler_switch
  dsimp only
  by_cases h1 : c = 3 ∨ c = 7 ∨ c = 17
  · rw [if_pos h1]
    exact wordOk_wSet wordOk_zero (by omega)
  rw [if_neg h1]
  by_cases h2 : c = 10
  · rw [if_pos h2]
    exact wordOk_query _ _ _ _ hw
  rw [if_neg h2]
  by_cases h3 : c = 11
  · rw [if_pos h3]
    split_ifs <;>
      first
        | exact hw
        | exact wordOk_wClear _ (wordOk_wClear _ hw)
  rw [if_neg h3]
  by_cases h4 : c = 14
  · rw [if_pos h4]
    split_ifs <;> exact hw
  rw [if_neg h4]
  by_cases h5 : c = 15
  · rw [if_pos h5]
    exact hw
  rw [if_neg h5]
  by_cases h6 : c = 16
  · rw [if_pos h6]
    split_ifs <;>
      first
        | exact hw
        | exact wordOk_wSet hw (by omega)
  rw [if_neg h6]
  by_cases h7 : c = 18
  · rw [if_pos h7]
    split_ifs <;> exact hw
  rw [if_neg h7]
  by_cases h8 : c = 21
  · rw [if_pos h8]
    rw [case21_waiting]
    exact hw
  rw [if_neg h8]
  by_cases h9 : c = 23
  · rw [if_pos h9]
    split_ifs <;>
      first
        | exact hw
        | exact wordOk_wClear _ hw
  rw [if_neg h9]
  by_cases h10 : c = 24
  · rw [if_pos h10]
    exact wordOk_case24 _ _ _ _ hw
  rw [if_neg h10]
  by_cases h11 : c = 27
  · rw [if_pos h11]
    split_ifs <;> exact hw
  rw [if_neg h11]
  by_cases h12 : c = 135
  · rw [if_pos h12]
    split_ifs <;> exact wordOk_wSet (wordOk_wSet hw (by omega)) (by omega)
  rw [if_neg h12]
  by_cases h13 : c = 141
  · rw [if_pos h13]
    exact wordOk_wSet (wordOk_wSet hw (by omega)) (by omega)
  rw [if_neg h13]
  by_cases h14 : c = 144 ∨ c = 131 ∨ c = 132
  · rw [if_pos h14]
    exact wordOk_wSet hw (by omega)
  rw [if_neg h14]
  by_cases h15 : c = 133
  · rw [if_pos h15]
    exact wordOk_wSet hw (by omega)
  rw [if_neg h15]
  by_cases h16 : c = 148 ∨ c = 149
  · rw [if_pos h16]
    exact wordOk_wSet hw (by omega)
  rw [if_neg h16]
  exact hw

theorem handle_len0_waiting (st : St) (inp : HandlerInput) :
    (handle_len0 st inp).waiting = st.waiting := by
  unfold handle_len0
  dsimp only
  split_ifs <;> rfl

theorem wordOk_translate_handler (st : St) (inp : HandlerInput)
    (hw : WordOk st.waiting) :
    WordOk (translate_handler st inp).1.waiting := by
  unfold translate_handler
  dsimp only
  split_ifs <;>
    first
      | exact hw
      | (rw [handle_len0_waiting]; exact hw)
      | exact wordOk_handler_switch _ _ _ _ hw
      | exact wordOk_handler_switch _ _ _ _ (wordOk_wClear _ hw)

theorem wordOk_translate_result (st : St) (inp : ResultInput)
    (hw : WordOk st.waiting) : WordOk (translate_result st inp).waiting := by
  unfold translate_result
  dsimp only
  split_ifs <;>
    first
      | exact hw
      | exact wordOk_wSet hw (by omega)

theorem wordOk_fin_switch (st : St) (rval : RVal)
    (hw : WordOk st.waiting) : WordOk (fin_switch st rval).1.waiting := by
  cases rval with
  | success => exact hw
  | endOfFile => exact hw
  | eoserror => exact hw
  | error => exact hw
  | esiowrite => exact hw
  | esioread => exact hw
  | esioframe => exact hw
  | esiocrc => exact hw
  | esiotimeout => exact hw
  | esiobadbaud => exact hw
  | packet c =>
    unfold fin_switch
    dsimp only
    by_cases c1 : c = 0x80
    · rw [if_pos c1]; exact hw
    rw [if_neg c1]
    by_cases c2 : c = 0x82
    · rw [if_pos c2]; exact wordOk_wSet hw (by omega)
    rw [if_neg c2]
    by_cases c3 : c = 0x83
    · rw [if_pos c3]; exact hw
    rw [if_neg c3]
    by_cases c4 : c = 0x84
    · rw [if_pos c4]; exact hw
    rw [if_neg c4]
    by_cases c5 : c = 0x85
    · rw [if_pos c5]; exact hw
    rw [if_neg c5]
    by_cases c6 : c = 0x87
    · rw [if_pos c6]; exact hw
    rw [if_neg c6]
    by_cases c7 : c = 0x88
    · rw [if_pos c7]; exact hw
    rw [if_neg c7]
    by_cases c8 : c = 0x89
    · rw [if_pos c8]
      by_cases hbc : wGet st.waiting 7 = true
      · rw [if_pos hbc]; exact wordOk_wClear _ hw
      · rw [if_neg hbc]; exact wordOk_wSet wordOk_zero (by omega)
    rw [if_neg c8]
    by_cases c9 : c = 0x8A
    · rw [if_pos c9]; exact hw
    rw [if_neg c9]
    by_cases c10 : c = 0x8B
    · rw [if_pos c10]; exact hw
    rw [if_neg c10]
    by_cases c11 : c = 0x8C
    · rw [if_pos c11]; exact hw
    rw [if_neg c11]
    exact hw

theorem write_core_tail_waiting (w0 : Nat) (st : St) :
    (write_core_tail w0 st).waiting = st.waiting := by
  unfold write_core_tail
  split_ifs <;> rfl

/-- Every reachable session state has its wait word confined to the ten
`waitflag` bits. -/
theorem reach_wordOk (st : St) (h : Reach st) : WordOk st.waiting := by
  induction h with
  | init st => exact wordOk_zero
  | handler st inp h ih => exact wordOk_translate_handler st inp ih
  | result st inp h ih => exact wordOk_translate_result st inp ih
  | clearCancel st h ih => exact wordOk_wSet wordOk_zero (by omega)
  | forceReady st h ih => exact ih
  | finSwitch st rval h ih => exact wordOk_fin_switch st rval ih
  | finOk st w0 h ih =>
    rw [fin_ok_waiting_eq]
    exact ih
  | writeCoreTail st w0 h ih =>
    rw [write_core_tail_waiting]
    exact ih
  | prep st h ih => exact wordOk_wClear _ ih
  | post st h ih => exact ih
  | connect st openOk speed h ih =>
    unfold gpx_connect
    split_ifs <;> exact ih

theorem pos_of_wGet {w i : Nat} (h : wGet w i = true) : 0 < w := by
  rcases Nat.eq_zero_or_pos w with h0 | h0
  · subst h0
    rw [wGet, Nat.zero_testBit] at h
    exact absurd h (by simp)
  · exact h0

/-- C7: in every session state reachable through initialization, the
translator, the result handler, the cancel reset, the finalizer pieces,
the write-string tail, the daemon loop steps and connect, the aggregate
`waiting` word is nonzero iff at least one of the ten wait flags
(`emptyQueue`, `extruderA`, `extruderB`, `platform`, `button`, `start`,
`buffer`, `botCancel`, `unpause`, `cancelSync`) is set. -/
theorem waiting_iff_flags (st : St) (h : Reach st) :
    0 < st.waiting ↔
      (wGet st.waiting 0 ∨ wGet st.waiting 1 ∨ wGet st.waiting 2 ∨
        wGet st.waiting 3 ∨ wGet st.waiting 4 ∨ wGet st.waiting 5 ∨
        wGet st.waiting 6 ∨ wGet st.waiting 7 ∨ wGet st.waiting 8 ∨
        wGet st.waiting 9) := by
  have hw := reach_wordOk st h
  constructor
  · intro hpos
    exact wordOk_ne_zero hw (by omega)
  · intro hflag
    rcases hflag with h0 | h0 | h0 | h0 | h0 | h0 | h0 | h0 | h0 | h0 <;>
      exact pos_of_wGet h0

/-- C7 witness: the freshly initialized session is reachable and
satisfies the equivalence (both sides false there). -/
theorem waiting_iff_flags_witness :
    0 < ( tio_initialize st0).waiting ↔
      (wGet ( tio_initialize st0).waiting 0 ∨
        wGet ( tio_initialize st0).waiting 1 ∨
        wGet ( tio_initialize st0).waiting 2 ∨
        wGet ( tio_initialize st0).waiting 3 ∨
        wGet ( tio_initialize st0).waiting 4 ∨
        wGet ( tio_initialize st0).waiting 5 ∨
        wGet ( tio_initialize st0).waiting 6 ∨
        wGet ( tio_initialize st0).waiting 7 ∨
        wGet ( tio_initialize st0).waiting 8 ∨
        wGet ( tio_initialize st0).waiting 9) :=
  waiting_iff_flags ( tio_initialize st0) (Reach.init st0)

end Gpxresp
